import Mathlib

/-!
Shallow embedding of the `tomkivlin.maas` Ansible collection's machine
state-reconciliation module (`plugins/modules/maas_machine_state.py`) and
of the status translator shared with `maas_machine_state_info.py`.

The embedding follows the Python source line by line:

* remote effects (libmaas calls and the signed HTTP POST used for
  `set_storage_layout`) are recorded in an ordered trace of `Call`s;
* the environment `Env` supplies everything the remote service would answer
  (machine status, block devices, interfaces, subnet lookup, and the
  success/failure of the fallible calls whose errors the module catches);
* `module.fail_json(msg, **result)` becomes `Outcome.failed msg result`,
  `module.exit_json` becomes `Outcome.exited`;
* Python's substring test `a in b` on strings is embedded as `pyIn`, and
  Python truthiness of optional strings/lists as `truthy` / `truthyList`.
-/

/-- Python's `needle in haystack` on lists of characters: `needle` occurs
as a contiguous run inside `haystack`. -/
def charsLead : List Char → List Char → Bool
  | [], _ => true
  | _ :: _, [] => false
  | a :: as, b :: bs => a == b && charsLead as bs

/-- Helper for `pyIn`: does `n` occur contiguously in the second list? -/
def charsHave (n : List Char) : List Char → Bool
  | [] => charsLead n []
  | b :: bs => charsLead n (b :: bs) || charsHave n bs

/-- Python's substring containment `needle in haystack` for strings. -/
def pyIn (needle haystack : String) : Bool :=
  charsHave needle.toList haystack.toList

/-- Python truthiness of an optional string (`None` and `''` are falsy). -/
def truthy : Option String → Bool
  | none => false
  | some s => !s.isEmpty

/-- Python truthiness of an optional list (`None` and `[]` are falsy). -/
def truthyList {α : Type} : Option (List α) → Bool
  | none => false
  | some [] => false
  | some (_ :: _) => true

/-- `status_map` from `maas_machine_state.py` (lines 180-230): translates the
numeric MaaS status code into its symbolic label, any unknown code giving
`UNKNOWN`. -/
def status_map (maas_status_id : Int) : String :=
  if maas_status_id = 0 then "NEW"
  else if maas_status_id = 1 then "COMMISSIONING"
  else if maas_status_id = 2 then "FAILED_COMMISSIONING"
  else if maas_status_id = 3 then "MISSING"
  else if maas_status_id = 4 then "READY"
  else if maas_status_id = 5 then "RESERVED"
  else if maas_status_id = 6 then "DEPLOYED"
  else if maas_status_id = 7 then "RETIRED"
  else if maas_status_id = 8 then "BROKEN"
  else if maas_status_id = 9 then "DEPLOYING"
  else if maas_status_id = 10 then "ALLOCATED"
  else if maas_status_id = 11 then "FAILED_DEPLOYMENT"
  else if maas_status_id = 12 then "RELEASING"
  else if maas_status_id = 13 then "FAILED_RELEASING"
  else if maas_status_id = 14 then "DISK_ERASING"
  else if maas_status_id = 15 then "FAILED_DISK_ERASING"
  else if maas_status_id = 16 then "RESCUE_MODE"
  else if maas_status_id = 17 then "ENTERING_RESCUE_MODE"
  else if maas_status_id = 18 then "FAILED_ENTERING_RESCUE_MODE"
  else if maas_status_id = 19 then "EXITING_RESCUE_MODE"
  else if maas_status_id = 20 then "FAILED_EXITING_RESCUE_MODE"
  else if maas_status_id = 21 then "TESTING"
  else if maas_status_id = 22 then "FAILED_TESTING"
  else "UNKNOWN"

/-- `status_map` from `maas_machine_state_info.py` (lines 89-139), kept as a
separate definition because the source repeats the table verbatim there. -/
def status_map_info (maas_status_id : Int) : String :=
  if maas_status_id = 0 then "NEW"
  else if maas_status_id = 1 then "COMMISSIONING"
  else if maas_status_id = 2 then "FAILED_COMMISSIONING"
  else if maas_status_id = 3 then "MISSING"
  else if maas_status_id = 4 then "READY"
  else if maas_status_id = 5 then "RESERVED"
  else if maas_status_id = 6 then "DEPLOYED"
  else if maas_status_id = 7 then "RETIRED"
  else if maas_status_id = 8 then "BROKEN"
  else if maas_status_id = 9 then "DEPLOYING"
  else if maas_status_id = 10 then "ALLOCATED"
  else if maas_status_id = 11 then "FAILED_DEPLOYMENT"
  else if maas_status_id = 12 then "RELEASING"
  else if maas_status_id = 13 then "FAILED_RELEASING"
  else if maas_status_id = 14 then "DISK_ERASING"
  else if maas_status_id = 15 then "FAILED_DISK_ERASING"
  else if maas_status_id = 16 then "RESCUE_MODE"
  else if maas_status_id = 17 then "ENTERING_RESCUE_MODE"
  else if maas_status_id = 18 then "FAILED_ENTERING_RESCUE_MODE"
  else if maas_status_id = 19 then "EXITING_RESCUE_MODE"
  else if maas_status_id = 20 then "FAILED_EXITING_RESCUE_MODE"
  else if maas_status_id = 21 then "TESTING"
  else if maas_status_id = 22 then "FAILED_TESTING"
  else "UNKNOWN"

/- Numeric values of `maas.client.enum.NodeStatus` (the external libmaas
enum the module compares `machine.status` against); the values agree with
the table encoded by `status_map`. -/
namespace NodeStatus

def NEW : Int := 0
def COMMISSIONING : Int := 1
def READY : Int := 4
def DEPLOYED : Int := 6
def BROKEN : Int := 8
def DEPLOYING : Int := 9
def ALLOCATED : Int := 10

end NodeStatus

/-- `maas.client.enum.BlockDeviceType`. -/
inductive BlockDeviceType where
  | PHYSICAL
  | VIRTUAL
deriving DecidableEq, Repr

/-- `maas.client.enum.InterfaceType` (the variants the module touches). -/
inductive InterfaceType where
  | PHYSICAL
  | VLAN
  | BOND
  | BRIDGE
deriving DecidableEq, Repr

/-- A block device of the machine as the module reads it: its type, `name`
and `serial`. -/
structure BlockDevice where
  type : BlockDeviceType
  name : String
  serial : String
deriving DecidableEq, Repr

/-- A network interface of the machine: its `name` and type. -/
structure Interface where
  name : String
  type : InterfaceType
deriving DecidableEq, Repr

/-- A subnet as resolved by `client.subnets.get(cidr)`: its `id` and the
`vid` of its VLAN (`subnet.vlan.vid`). -/
structure Subnet where
  id : Int
  vlanVid : Int
deriving DecidableEq, Repr

/-- One `vlans` list entry, with the suboptions of the module's argument
spec.  `ip_address` is optional (`None` when not supplied). -/
structure VlanDecl where
  vlan_id : Int
  parent : String
  subnet_cidr : String
  link_mode : String
  ip_address : Option String
  state : String
deriving DecidableEq, Repr

/-- Identifies the interface a `links.create` call is issued on: either an
existing interface by name, or the VLAN sub-interface just created on a
parent for a given VLAN vid. -/
inductive IfaceRef where
  | named (n : String)
  | vlanIface (parent : String) (vid : Int)
deriving DecidableEq, Repr

/-- One remote effect of the module, in the order issued. -/
inductive Call where
  | connect
  | getMachine (system_id : String)
  | setStorageLayout (layout : String)
  | setAsBootDisk (name serial : String)
  | deleteInterface (name : String)
  | disconnectInterface (name : String)
  | getSubnet (cidr : String)
  | createLink (iface : IfaceRef) (mode : String) (subnet : Option Int)
      (ip_address : Option String) (forced : Bool)
  | createVlanInterface (parent : String) (vid : Int)
  | commission (scripts : Option (List String))
  | release (wait : Bool)
  | abort
  | sleep (seconds : Nat)
  | refresh
  | deploy (distro_series : Option String) (b64_user_data : Option String)
deriving DecidableEq, Repr

/-- The messages the module can pass to `fail_json`, one constructor per
format string in the source. -/
inductive Msg where
  | staticNeedsIp
  | connectFailed
  | machineNotFound (system_id : String)
  | forceToCommission (status : String)
  | cannotCommission (status : String)
  | cannotRelease (status : String)
  | cannotDeploy (status : String)
  | noBootDisk (selector : String)
  | layoutFailed (layout : String)
  | deployCallError
  | deployFailed
deriving DecidableEq, Repr

/-- The literal message text each `Msg` renders to, copied from the
`fail_json` call sites of `maas_machine_state.py`. -/
def Msg.render : Msg → String
  | .staticNeedsIp =>
      "vlans.ip_address must be provided if vlans.link_mode: static"
  | .connectFailed => "Unable to connect - please check the URL!"
  | .machineNotFound sid =>
      "No machine matching system ID " ++ sid ++
      " in MaaS or API key not authorised!"
  | .forceToCommission st =>
      "ERROR: machine is in " ++ st ++
      " state, set force: true to commission the node."
  | .cannotCommission st =>
      "ERROR: machine is in " ++ st ++ " state - cannot be commissioned."
  | .cannotRelease st =>
      "ERROR: machine is in " ++ st ++ " state - cannot be released."
  | .cannotDeploy st =>
      "ERROR: machine is in " ++ st ++ " state - cannot be deployed."
  | .noBootDisk sel =>
      "No physical disk found with name or serial number matching " ++ sel
  | .layoutFailed l =>
      "Unable to apply the " ++ l ++
      " layout, please check the server in MAAS."
  | .deployCallError => "CallError"
  | .deployFailed =>
      "Deploy failed - check the machine config, e.g. storage is mounted correctly."

/-- A failure message indicates that `force` may unlock the operation when
its rendered text mentions `force`. -/
def Msg.hintsForce (m : Msg) : Bool :=
  pyIn "force" m.render

/-- The `result` dictionary the module seeds and passes to `fail_json` /
`exit_json`. -/
structure ResultDict where
  changed : Bool
  system_id : String
deriving DecidableEq, Repr

/-- How a run of the module terminates: `fail_json msg **result`, or
`exit_json` (the success dictionary additionally carries
`original_state`; the check-mode exit does not). -/
inductive Outcome where
  | failed (msg : Msg) (res : ResultDict)
  | exited (res : ResultDict) (original_state : Option String)
deriving DecidableEq, Repr

/-- The module's input parameters (after Ansible's argument parsing). -/
structure Params where
  system_id : String
  state : String
  scripts : Option (List String)
  force : Bool
  distro_series : Option String
  b64_user_data : Option String
  boot_disk : Option String
  storage_layout : Option String
  vlans : Option (List VlanDecl)
deriving Repr

/-- Everything the remote MaaS service contributes to one run: whether the
caught-fallible calls succeed, the machine's status and inventory, and the
subnet resolved for each CIDR. -/
structure Env where
  connectOk : Bool
  machineFound : Bool
  status : Int
  blockDevices : List BlockDevice
  interfaces : List Interface
  subnets : String → Subnet
  blankOk : Bool
  layoutOk : Bool
  releaseOk : Bool
  deployOk : Bool
  statusAfterRelease : Int

/-- `set_boot_disk` (lines 252-264): walks every block device; for each
PHYSICAL device whose `name` — or, failing that, whose `serial` — is a
Python-substring of the `boot_disk` selector, issues `set_as_boot_disk()`
and records `'pass'`; a non-matching physical device records `'fail'`.
The single result string is overwritten on every physical device, so the
value returned is that of the last physical device visited (`''` when
there is none). -/
def set_boot_disk (blockDevices : List BlockDevice) (boot_disk : String) :
    List Call × String :=
  blockDevices.foldl
    (fun acc disk =>
      if disk.type = BlockDeviceType.PHYSICAL then
        if pyIn disk.name boot_disk then
          (acc.1 ++ [Call.setAsBootDisk disk.name disk.serial], "pass")
        else if pyIn disk.serial boot_disk then
          (acc.1 ++ [Call.setAsBootDisk disk.name disk.serial], "pass")
        else (acc.1, "fail")
      else acc)
    ([], "")

/-- `set_storage_layout` (lines 267-284): one signed HTTP POST with
`op=set_storage_layout`; `'success'` iff the response status is 200
(`respOk` is the environment's answer for this particular call). -/
def set_storage_layout (layout : String) (respOk : Bool) :
    List Call × String :=
  ([Call.setStorageLayout layout], if respOk then "success" else "fail")

/-- `delete_interfaces` (lines 287-294): per interface in order, delete it
when it is a VLAN/BOND/BRIDGE interface, and disconnect it when it is
PHYSICAL. -/
def delete_interfaces (interfaces : List Interface) : List Call :=
  interfaces.foldl
    (fun acc i =>
      let acc :=
        if i.type = InterfaceType.VLAN ∨ i.type = InterfaceType.BOND ∨
            i.type = InterfaceType.BRIDGE then
          acc ++ [Call.deleteInterface i.name]
        else acc
      if i.type = InterfaceType.PHYSICAL then
        acc ++ [Call.disconnectInterface i.name]
      else acc)
    []

/-- `create_vlan_interface` (lines 297-325): resolve the subnet by CIDR;
only when the declared `vlan_id` equals the subnet's VLAN vid, create the
two forced LINK_UP links on the parent (first with the subnet, then
without), create the VLAN sub-interface, and add the link in the declared
mode; on a vid mismatch nothing further happens. -/
def create_vlan_interface (vlan : VlanDecl) (subnets : String → Subnet) :
    List Call :=
  let maas_subnet := subnets vlan.subnet_cidr
  let calls := [Call.getSubnet vlan.subnet_cidr]
  if vlan.vlan_id = maas_subnet.vlanVid then
    let vi := IfaceRef.vlanIface vlan.parent maas_subnet.vlanVid
    let calls := calls ++
      [Call.createLink (IfaceRef.named vlan.parent) "LINK_UP"
        (some maas_subnet.id) none true,
       Call.createLink (IfaceRef.named vlan.parent) "LINK_UP" none none true,
       Call.createVlanInterface vlan.parent maas_subnet.vlanVid]
    let calls :=
      if pyIn "dhcp" vlan.link_mode then
        calls ++ [Call.createLink vi "DHCP" (some maas_subnet.id) none false]
      else calls
    let calls :=
      if pyIn "auto" vlan.link_mode then
        calls ++ [Call.createLink vi "AUTO" (some maas_subnet.id) none false]
      else calls
    let calls :=
      if pyIn "static" vlan.link_mode then
        calls ++
          [Call.createLink vi "STATIC" (some maas_subnet.id)
            vlan.ip_address false]
      else calls
    calls
  else calls

/-- `machine.commission(wait=False, ...)`: the commissioning-scripts
argument is passed exactly when the `scripts` parameter is truthy
(lines 425-430, 436-442). -/
def commissionCall (scripts : Option (List String)) : Call :=
  if truthyList scripts then Call.commission scripts
  else Call.commission none

/-- The `state == 'commissioned'` branch (lines 422-465): calls issued and
either the changed flag or the failure message. -/
def commissionedBranch (p : Params) (statusId : Int) (statusStr : String) :
    List Call × Except Msg Bool :=
  if statusId = NodeStatus.NEW then
    ([commissionCall p.scripts], Except.ok true)
  else if statusId = NodeStatus.READY ∨ statusId = NodeStatus.ALLOCATED ∨
      statusId = NodeStatus.BROKEN then
    if p.force then ([commissionCall p.scripts], Except.ok true)
    else ([], Except.error (Msg.forceToCommission statusStr))
  else if statusId = NodeStatus.DEPLOYED then
    if p.force then
      ([Call.release true, commissionCall p.scripts], Except.ok true)
    else ([], Except.error (Msg.forceToCommission statusStr))
  else if statusId = NodeStatus.COMMISSIONING ∨
      statusId = NodeStatus.DEPLOYING then
    if p.force then
      ([Call.abort, Call.sleep 20, commissionCall p.scripts], Except.ok true)
    else ([], Except.error (Msg.forceToCommission statusStr))
  else ([], Except.error (Msg.cannotCommission statusStr))

/-- The `state == 'ready'` branch (lines 466-479): release from
ALLOCATED/DEPLOYING/DEPLOYED (failing only when that release call raises
`CallError`), an explicit no-op from READY, and silent fall-through from
every other status. -/
def readyBranch (e : Env) (statusId : Int) (statusStr : String) :
    List Call × Except Msg Bool :=
  if statusId = NodeStatus.ALLOCATED ∨ statusId = NodeStatus.DEPLOYING ∨
      statusId = NodeStatus.DEPLOYED then
    if e.releaseOk then ([Call.release false], Except.ok true)
    else ([Call.release false], Except.error (Msg.cannotRelease statusStr))
  else if statusId = NodeStatus.READY then ([], Except.ok false)
  else ([], Except.ok false)

/-- The deploy call chosen by the truthiness analysis of
`b64_user_data`/`distro_series` (lines 519-544), with the message the
corresponding `except` clause would use. -/
def deployCallAndMsg (distro_series b64_user_data : Option String) :
    Call × Msg :=
  if truthy b64_user_data ∧ truthy distro_series then
    (Call.deploy distro_series b64_user_data, Msg.deployCallError)
  else if truthy distro_series ∧ b64_user_data = none then
    (Call.deploy distro_series none, Msg.deployCallError)
  else if truthy b64_user_data ∧ distro_series = none then
    (Call.deploy none b64_user_data, Msg.deployCallError)
  else (Call.deploy none none, Msg.deployFailed)

/-- The per-declaration loop of lines 509-517: apply
`create_vlan_interface` to every declaration whose `state` contains
`'present'`. -/
def vlanLoop (vlans : List VlanDecl) (subnets : String → Subnet) :
    List Call :=
  vlans.foldl
    (fun acc v =>
      if pyIn "present" v.state then acc ++ create_vlan_interface v subnets
      else acc)
    []

/-- The `state == 'deployed'` branch (lines 480-547).  A forced release
from DEPLOYED/DEPLOYING refreshes the numeric status (but not the status
string used in messages); from READY/ALLOCATED the reconfiguration
sequence runs: blank layout, optional boot disk, optional layout,
interface teardown, VLAN loop, then the deploy call; any other status
fails with the cannot-be-deployed message. -/
def deployedBranch (p : Params) (e : Env) (statusId : Int)
    (statusStr : String) : List Call × Except Msg Bool :=
  let step1 : List Call × Int × Bool :=
    if (statusId = NodeStatus.DEPLOYED ∨ statusId = NodeStatus.DEPLOYING) ∧
        p.force then
      ([Call.release true, Call.sleep 30, Call.refresh],
       e.statusAfterRelease, true)
    else ([], statusId, false)
  let trace1 := step1.1
  let statusId1 := step1.2.1
  let changed1 := step1.2.2
  if statusId1 = NodeStatus.READY ∨ statusId1 = NodeStatus.ALLOCATED then
    let s2 := set_storage_layout "blank" e.blankOk
    let trace2 := trace1 ++ s2.1
    let changed2 := if pyIn "success" s2.2 then true else changed1
    let bootRes : List Call × Except Msg Bool :=
      if truthy p.boot_disk then
        let bd := p.boot_disk.getD ""
        let b := set_boot_disk e.blockDevices bd
        if pyIn "fail" b.2 then
          (trace2 ++ b.1, Except.error (Msg.noBootDisk bd))
        else (trace2 ++ b.1, Except.ok changed2)
      else (trace2, Except.ok changed2)
    match bootRes with
    | (t, Except.error m) => (t, Except.error m)
    | (t3, Except.ok changed3) =>
      let layoutRes : List Call × Except Msg Bool :=
        if truthy p.storage_layout then
          let sl := p.storage_layout.getD ""
          let s4 := set_storage_layout sl e.layoutOk
          if pyIn "success" s4.2 then (t3 ++ s4.1, Except.ok true)
          else if pyIn "fail" s4.2 then
            (t3 ++ s4.1, Except.error (Msg.layoutFailed sl))
          else (t3 ++ s4.1, Except.ok changed3)
        else (t3, Except.ok changed3)
      match layoutRes with
      | (t, Except.error m) => (t, Except.error m)
      | (t5, _changed5) =>
        let t6 := t5 ++ delete_interfaces e.interfaces
        let t7 := t6 ++ vlanLoop (p.vlans.getD []) e.subnets
        let dc := deployCallAndMsg p.distro_series p.b64_user_data
        if e.deployOk then (t7 ++ [dc.1], Except.ok true)
        else (t7 ++ [dc.1], Except.error dc.2)
  else (trace1, Except.error (Msg.cannotDeploy statusStr))

/-- The validation of lines 398-403: some declaration has a `'static'`
link mode and a missing (`None`) `ip_address`. -/
def staticViolation (vlans : Option (List VlanDecl)) : Bool :=
  (vlans.getD []).any
    (fun v => pyIn "static" v.link_mode && v.ip_address.isNone)

/-- The tail of `run_module` (lines 549-555 together with each branch's
`fail_json` exit): a branch failure becomes `fail_json(msg, **result)`
with the threaded `result`; a completed reconciliation hits the
check-mode test of line 549 — exiting with the still-seeded `result` in
check mode — and otherwise exits with the computed dictionary of line
552. -/
def finishRun (p : Params) (check_mode : Bool) (result : ResultDict)
    (t0 : List Call) (statusStr : String) :
    List Call × Except Msg Bool → List Call × Outcome
  | (t, Except.error m) => (t0 ++ t, Outcome.failed m result)
  | (t, Except.ok changed) =>
    if check_mode then (t0 ++ t, Outcome.exited result none)
    else
      (t0 ++ t,
       Outcome.exited { changed := changed, system_id := p.system_id }
         (some statusStr))

/-- `run_module` (lines 328-555): the whole module run, returning the
ordered trace of remote calls and the terminal outcome.  `check_mode` is
the `module.check_mode` flag, consulted only at line 549, after the whole
reconciliation has run. -/
def run_module (p : Params) (check_mode : Bool) (e : Env) :
    List Call × Outcome :=
  let result : ResultDict := { changed := false, system_id := "" }
  if staticViolation p.vlans then
    ([], Outcome.failed Msg.staticNeedsIp result)
  else if !e.connectOk then
    ([Call.connect], Outcome.failed Msg.connectFailed result)
  else if !e.machineFound then
    ([Call.connect, Call.getMachine p.system_id],
     Outcome.failed (Msg.machineNotFound p.system_id) result)
  else
    let t0 : List Call := [Call.connect, Call.getMachine p.system_id]
    let statusId := e.status
    let statusStr := status_map statusId
    let branch : List Call × Except Msg Bool :=
      if p.state = "commissioned" then
        commissionedBranch p statusId statusStr
      else if p.state = "ready" then readyBranch e statusId statusStr
      else if p.state = "deployed" then deployedBranch p e statusId statusStr
      else ([], Except.ok false)
    finishRun p check_mode result t0 statusStr branch

/-! Concrete fixtures used by the counterexamples and witnesses below. -/

/-- A minimal parameter set (release to ready, nothing optional). -/
def baseParams : Params :=
  { system_id := "y3b3x3", state := "ready", scripts := none,
    force := false, distro_series := none, b64_user_data := none,
    boot_disk := none, storage_layout := none, vlans := none }

/-- A benign environment: reachable service, machine found, READY,
empty inventory, every fallible call succeeding. -/
def baseEnv : Env :=
  { connectOk := true, machineFound := true, status := 4,
    blockDevices := [], interfaces := [],
    subnets := fun _ => { id := 0, vlanVid := 0 },
    blankOk := true, layoutOk := true, releaseOk := true, deployOk := true,
    statusAfterRelease := 4 }

/-- Target `ready` with the machine in status NEW. -/
def readyNewP : Params := { baseParams with state := "ready" }

/-- Environment with the machine in status NEW (code 0). -/
def statusNewE : Env := { baseEnv with status := 0 }

/-- Environment with the machine in status BROKEN (code 8). -/
def statusBrokenE : Env := { baseEnv with status := 8 }

/-- Target `deployed` without force while the machine is DEPLOYED. -/
def deployBlockedP : Params :=
  { baseParams with
    state := "deployed",
    storage_layout := some "flat",
    vlans := some [] }

/-- Environment with the machine DEPLOYED (code 6). -/
def statusDeployedE : Env := { baseEnv with status := 6 }

/-- A DHCP VLAN declaration for vlan 100 on eth0. -/
def dhcpVlan100 : VlanDecl :=
  { vlan_id := 100, parent := "eth0", subnet_cidr := "10.0.0.0/24",
    link_mode := "dhcp", ip_address := none, state := "present" }

/-- Deployment request carrying the single DHCP VLAN declaration. -/
def vlanDeployP : Params :=
  { baseParams with
    state := "deployed",
    storage_layout := some "flat",
    vlans := some [dhcpVlan100] }

/-- Environment where the resolved subnet's VLAN tag is 200, mismatching
the declared vlan 100. -/
def vlanMismatchE : Env :=
  { baseEnv with
    status := 4,
    interfaces := [{ name := "eth0", type := InterfaceType.PHYSICAL }],
    subnets := fun _ => { id := 7, vlanVid := 200 } }

/-- Deployment request selecting boot disk `sda` with an LVM layout. -/
def bootDiskP : Params :=
  { baseParams with
    state := "deployed",
    boot_disk := some "sda",
    storage_layout := some "lvm",
    vlans := some [] }

/-- Environment whose machine has a matching physical disk `sda` followed
by a non-matching physical disk `sdb`. -/
def bootDiskE : Env :=
  { baseEnv with
    status := 4,
    blockDevices :=
      [{ type := BlockDeviceType.PHYSICAL, name := "sda", serial := "S1" },
       { type := BlockDeviceType.PHYSICAL, name := "sdb", serial := "S2" }] }

/-- A static-mode VLAN declaration whose ip_address is the empty string
(present but empty, not `None`). -/
def staticEmptyIpVlan : VlanDecl :=
  { vlan_id := 100, parent := "eth0", subnet_cidr := "10.0.0.0/24",
    link_mode := "static", ip_address := some "", state := "present" }

/-- A static-mode VLAN declaration with no ip_address at all. -/
def staticNoIpVlan : VlanDecl :=
  { staticEmptyIpVlan with ip_address := none }

/-- Deployment request carrying the empty-string static declaration. -/
def staticEmptyIpP : Params :=
  { baseParams with
    state := "deployed",
    storage_layout := some "flat",
    vlans := some [staticEmptyIpVlan] }

/-- Environment where the subnet for the static declaration resolves with
the matching VLAN tag 100. -/
def vlanMatchE : Env :=
  { baseEnv with
    status := 4,
    interfaces := [{ name := "eth0.50", type := InterfaceType.VLAN },
                   { name := "eth0", type := InterfaceType.PHYSICAL }],
    subnets := fun _ => { id := 7, vlanVid := 100 } }

/-- Commissioning request without force. -/
def commissionNoForceP : Params :=
  { baseParams with state := "commissioned", force := false }

/-- Commissioning request with force and one commissioning script. -/
def commissionForceP : Params :=
  { baseParams with
    state := "commissioned",
    force := true,
    scripts := some ["clear_hardware_raid"] }

/-- Forced deployment over a DEPLOYED machine whose final deploy call is
rejected: release/storage mutations happen, then the run fails. -/
def forcedDeployP : Params :=
  { baseParams with
    state := "deployed",
    force := true,
    storage_layout := some "flat",
    vlans := some [] }

/-- Environment for `forcedDeployP`: DEPLOYED machine, release settles to
READY, but the deploy call raises `CallError`. -/
def deployRejectedE : Env :=
  { baseEnv with status := 6, statusAfterRelease := 4, deployOk := false }

/-! Theorems. -/

/-- The trace `finishRun` emits never depends on the check-mode flag. -/
lemma finishRun_fst (p : Params) (cm : Bool) (res : ResultDict)
    (t0 : List Call) (s : String) (B : List Call × Except Msg Bool) :
    (finishRun p cm res t0 s B).1 = t0 ++ B.1 := by
  rcases B with ⟨t, mB | cB⟩ <;> rcases cm <;> simp [finishRun]

/-- A failure outcome of `finishRun` carries exactly the threaded result
dictionary. -/
lemma finishRun_failed {p : Params} {cm : Bool} {res : ResultDict}
    {t0 : List Call} {s : String} {B : List Call × Except Msg Bool}
    {m : Msg} {r : ResultDict}
    (h : (finishRun p cm res t0 s B).2 = Outcome.failed m r) : r = res := by
  rcases B with ⟨t, mB | cB⟩ <;> simp_all [finishRun]
  rcases cm <;> simp_all

/-- A successful exit of `finishRun` under check mode answers with the
threaded (seeded) result and no original_state. -/
lemma finishRun_exited_check {p : Params} {res : ResultDict}
    {t0 : List Call} {s : String} {B : List Call × Except Msg Bool}
    {r : ResultDict} {os : Option String}
    (h : (finishRun p true res t0 s B).2 = Outcome.exited r os) :
    r = res ∧ os = none := by
  rcases B with ⟨t, mB | cB⟩ <;> simp_all [finishRun]

/-- C5: the status translator is total over the integers: each of the 23
known codes 0-22 maps to its documented label, every integer outside that
set maps to UNKNOWN, and the verbatim copy of the table in
`maas_machine_state_info.py` agrees with it everywhere. -/
theorem status_map_total :
    (status_map 0 = "NEW" ∧ status_map 1 = "COMMISSIONING" ∧
     status_map 2 = "FAILED_COMMISSIONING" ∧ status_map 3 = "MISSING" ∧
     status_map 4 = "READY" ∧ status_map 5 = "RESERVED" ∧
     status_map 6 = "DEPLOYED" ∧ status_map 7 = "RETIRED" ∧
     status_map 8 = "BROKEN" ∧ status_map 9 = "DEPLOYING" ∧
     status_map 10 = "ALLOCATED" ∧ status_map 11 = "FAILED_DEPLOYMENT" ∧
     status_map 12 = "RELEASING" ∧ status_map 13 = "FAILED_RELEASING" ∧
     status_map 14 = "DISK_ERASING" ∧ status_map 15 = "FAILED_DISK_ERASING" ∧
     status_map 16 = "RESCUE_MODE" ∧ status_map 17 = "ENTERING_RESCUE_MODE" ∧
     status_map 18 = "FAILED_ENTERING_RESCUE_MODE" ∧
     status_map 19 = "EXITING_RESCUE_MODE" ∧
     status_map 20 = "FAILED_EXITING_RESCUE_MODE" ∧
     status_map 21 = "TESTING" ∧ status_map 22 = "FAILED_TESTING") ∧
    (∀ code : Int, code < 0 ∨ 22 < code → status_map code = "UNKNOWN") ∧
    (∀ code : Int, status_map_info code = status_map code) := by
  refine ⟨by decide, ?_, fun code => rfl⟩
  intro code h
  unfold status_map
  repeat rw [if_neg (by omega)]

/-- Witness for C5: the out-of-table half at code 23 and the agreement of
the two copies at code -5. -/
theorem status_map_total_witness :
    status_map 23 = "UNKNOWN" ∧ status_map_info (-5) = status_map (-5) :=
  ⟨status_map_total.2.1 23 (Or.inr (by norm_num)),
   status_map_total.2.2 (-5)⟩

/-- Counterexample to C1: with target `ready` and the machine in status
NEW — a status other than ALLOCATED/DEPLOYING/DEPLOYED/READY — the run
does not fail: it exits successfully with changed=false. -/
theorem ready_unhandled_status_cex :
    run_module readyNewP false statusNewE =
      ([Call.connect, Call.getMachine "y3b3x3"],
       Outcome.exited { changed := false, system_id := "y3b3x3" }
         (some "NEW")) := by
  rfl

/-- C1 (amended): with target `ready`, from any status other than
ALLOCATED, DEPLOYING, DEPLOYED or READY, the reconciliation silently
falls through: it issues no release call and exits successfully with
changed=false (the cannot-be-released failure is reachable only when the
release call issued from ALLOCATED/DEPLOYING/DEPLOYED raises). -/
theorem ready_unhandled_status_exits_ok (p : Params) (e : Env)
    (hs : p.state = "ready")
    (hv : staticViolation p.vlans = false)
    (hc : e.connectOk = true) (hm : e.machineFound = true)
    (h4 : e.status ≠ 4) (h6 : e.status ≠ 6) (h9 : e.status ≠ 9)
    (h10 : e.status ≠ 10) :
    run_module p false e =
      ([Call.connect, Call.getMachine p.system_id],
       Outcome.exited { changed := false, system_id := p.system_id }
         (some (status_map e.status))) := by
  simp [run_module, readyBranch, finishRun, hs, hv, hc, hm, h4, h6, h9,
    h10, NodeStatus.READY, NodeStatus.DEPLOYED, NodeStatus.DEPLOYING,
    NodeStatus.ALLOCATED]

/-- Witness for C1's amended theorem at status BROKEN. -/
theorem ready_unhandled_status_exits_ok_witness :
    run_module readyNewP false statusBrokenE =
      ([Call.connect, Call.getMachine "y3b3x3"],
       Outcome.exited { changed := false, system_id := "y3b3x3" }
         (some "BROKEN")) :=
  ready_unhandled_status_exits_ok readyNewP statusBrokenE rfl rfl rfl rfl
    (by decide) (by decide) (by decide) (by decide)

/-- Counterexample to C2: deploying a DEPLOYED machine without force does
fail with only connect/get issued, but the message — the generic
cannot-be-deployed text also used for unforceable states — does not
indicate that force may unlock the operation. -/
theorem deploy_blocked_message_cex :
    run_module deployBlockedP false statusDeployedE =
      ([Call.connect, Call.getMachine "y3b3x3"],
       Outcome.failed (Msg.cannotDeploy "DEPLOYED")
         { changed := false, system_id := "" }) ∧
    Msg.hintsForce (Msg.cannotDeploy "DEPLOYED") = false := by
  constructor
  · rfl
  · rfl

/-- C2 (amended): with target `deployed` and the machine DEPLOYED or
DEPLOYING and force=false, the run fails naming the current state in the
generic cannot-be-deployed message — which does not mention force — and
issues no release or deploy call (only connect and the machine fetch). -/
theorem deploy_blocked_fails_without_force_hint (p : Params) (cm : Bool)
    (e : Env)
    (hs : p.state = "deployed") (hf : p.force = false)
    (hv : staticViolation p.vlans = false)
    (hc : e.connectOk = true) (hm : e.machineFound = true)
    (hst : e.status = 6 ∨ e.status = 9) :
    run_module p cm e =
      ([Call.connect, Call.getMachine p.system_id],
       Outcome.failed (Msg.cannotDeploy (status_map e.status))
         { changed := false, system_id := "" }) ∧
    Msg.hintsForce (Msg.cannotDeploy (status_map e.status)) = false := by
  obtain h | h := hst <;>
    refine ⟨?_, by rw [h]; rfl⟩ <;>
    simp [run_module, deployedBranch, finishRun, hs, hf, hv, hc, hm, h,
      NodeStatus.READY, NodeStatus.DEPLOYED, NodeStatus.DEPLOYING,
      NodeStatus.ALLOCATED]

/-- Witness for C2's amended theorem at status DEPLOYING (code 9). -/
theorem deploy_blocked_fails_without_force_hint_witness :
    run_module deployBlockedP false { baseEnv with status := 9 } =
      ([Call.connect, Call.getMachine "y3b3x3"],
       Outcome.failed (Msg.cannotDeploy "DEPLOYING")
         { changed := false, system_id := "" }) ∧
    Msg.hintsForce (Msg.cannotDeploy "DEPLOYING") = false :=
  deploy_blocked_fails_without_force_hint deployBlockedP false
    { baseEnv with status := 9 } rfl rfl rfl rfl rfl (Or.inr rfl)

/-- Counterexample to C3: with one present VLAN declaration whose declared
vlan 100 mismatches the resolved subnet's tag 200, the run does not fail:
the subnet is resolved, the declaration is silently skipped (no link or
VLAN-interface call), and deployment proceeds, exiting changed=true. -/
theorem vlan_mismatch_cex :
    run_module vlanDeployP false vlanMismatchE =
      ([Call.connect, Call.getMachine "y3b3x3",
        Call.setStorageLayout "blank", Call.setStorageLayout "flat",
        Call.disconnectInterface "eth0", Call.getSubnet "10.0.0.0/24",
        Call.deploy none none],
       Outcome.exited { changed := true, system_id := "y3b3x3" }
         (some "READY")) := by
  rfl

/-- C3 (amended): a declaration whose vlan_id differs from the resolved
subnet's VLAN tag is silently skipped by `create_vlan_interface`: the
subnet lookup is the only call it performs — no links, no VLAN interface,
and no failure. -/
theorem vlan_mismatch_silently_skipped (v : VlanDecl)
    (subnets : String → Subnet)
    (h : v.vlan_id ≠ (subnets v.subnet_cidr).vlanVid) :
    create_vlan_interface v subnets = [Call.getSubnet v.subnet_cidr] := by
  unfold create_vlan_interface
  simp [h]

/-- Witness for C3's amended theorem on the mismatching fixture. -/
theorem vlan_mismatch_silently_skipped_witness :
    create_vlan_interface dhcpVlan100 vlanMismatchE.subnets =
      [Call.getSubnet "10.0.0.0/24"] :=
  vlan_mismatch_silently_skipped dhcpVlan100 vlanMismatchE.subnets
    (by decide)

/-- Unfolding `set_boot_disk` over the last device of the list. -/
lemma set_boot_disk_append (ds : List BlockDevice) (d : BlockDevice)
    (bd : String) :
    set_boot_disk (ds ++ [d]) bd =
      (let acc := set_boot_disk ds bd
       if d.type = BlockDeviceType.PHYSICAL then
         if pyIn d.name bd then
           (acc.1 ++ [Call.setAsBootDisk d.name d.serial], "pass")
         else if pyIn d.serial bd then
           (acc.1 ++ [Call.setAsBootDisk d.name d.serial], "pass")
         else (acc.1, "fail")
       else acc) := by
  unfold set_boot_disk
  rw [List.foldl_append]
  simp only [List.foldl_cons, List.foldl_nil]

/-- Counterexample to C4: the machine has a physical disk whose name
matches the selector `sda` (and it is set as boot disk), yet because a
non-matching physical disk `sdb` comes after it, the reconciliation
fails with the no-matching-disk error and never reaches the deploy
call — the position of the matching disk does matter. -/
theorem boot_disk_position_cex :
    run_module bootDiskP false bootDiskE =
      ([Call.connect, Call.getMachine "y3b3x3",
        Call.setStorageLayout "blank", Call.setAsBootDisk "sda" "S1"],
       Outcome.failed (Msg.noBootDisk "sda")
         { changed := false, system_id := "" }) := by
  rfl

/-- C4 (amended): `set_boot_disk` walks every physical block device, not
only up to a first match: it issues a set-boot-disk call for every
physical device whose name — or else serial — is a substring of the
selector, and its verdict is that of the last physical device alone
(empty when the machine has no physical device).  Hence the surrounding
run fails iff the last physical device matches neither name nor serial,
regardless of matches earlier in the list, and a machine with no
physical devices does not fail even though nothing matched. -/
theorem boot_disk_last_physical_decides (devices : List BlockDevice)
    (bd : String) :
    ((set_boot_disk devices bd).2 =
      (match (devices.filter
          fun d => d.type = BlockDeviceType.PHYSICAL).getLast? with
       | none => ""
       | some d =>
         if pyIn d.name bd then "pass"
         else if pyIn d.serial bd then "pass"
         else "fail")) ∧
    ((set_boot_disk devices bd).1 =
      ((devices.filter fun d => d.type = BlockDeviceType.PHYSICAL).filter
        (fun d => pyIn d.name bd || pyIn d.serial bd)).map
        (fun d => Call.setAsBootDisk d.name d.serial)) := by
  induction devices using List.reverseRecOn with
  | nil => exact ⟨rfl, rfl⟩
  | append_singleton ds d ih =>
    obtain ⟨ih1, ih2⟩ := ih
    rw [set_boot_disk_append]
    by_cases hp : d.type = BlockDeviceType.PHYSICAL
    · by_cases hn : pyIn d.name bd
      · simp [hp, hn, List.filter_append, List.getLast?_concat, ih2]
      · by_cases hs : pyIn d.serial bd
        · simp [hp, hn, hs, List.filter_append, List.getLast?_concat, ih2]
        · simp [hp, hn, hs, List.filter_append, List.getLast?_concat,
            ih1, ih2]
    · simp [hp, List.filter_append, ih1, ih2]

/-- Counterexample to C6: a static-mode declaration whose ip_address is
the empty string — not missing, but empty — passes validation: the run
opens the connection, mutates storage and interfaces, creates the static
link with the empty address, deploys, and exits changed=true. -/
theorem static_empty_ip_cex :
    run_module staticEmptyIpP false vlanMatchE =
      ([Call.connect, Call.getMachine "y3b3x3",
        Call.setStorageLayout "blank", Call.setStorageLayout "flat",
        Call.deleteInterface "eth0.50", Call.disconnectInterface "eth0",
        Call.getSubnet "10.0.0.0/24",
        Call.createLink (IfaceRef.named "eth0") "LINK_UP" (some 7) none
          true,
        Call.createLink (IfaceRef.named "eth0") "LINK_UP" none none true,
        Call.createVlanInterface "eth0" 100,
        Call.createLink (IfaceRef.vlanIface "eth0" 100) "STATIC" (some 7)
          (some "") false,
        Call.deploy none none],
       Outcome.exited { changed := true, system_id := "y3b3x3" }
         (some "READY")) := by
  rfl

/-- C6 (amended): only a static-mode declaration whose ip_address is
missing (`None`) is rejected up front: whenever some declaration has a
static link mode and no ip_address at all, the run fails with the
validation message and an empty trace — no connection, no gateway call,
no mutation.  An empty-string address is not caught by this check. -/
theorem static_missing_ip_rejected (p : Params) (cm : Bool) (e : Env)
    (h : ∃ v ∈ p.vlans.getD [],
      pyIn "static" v.link_mode = true ∧ v.ip_address = none) :
    run_module p cm e =
      ([], Outcome.failed Msg.staticNeedsIp
        { changed := false, system_id := "" }) := by
  have hv : staticViolation p.vlans = true := by
    unfold staticViolation
    rw [List.any_eq_true]
    obtain ⟨v, hin, h1, h2⟩ := h
    exact ⟨v, hin, by simp [h1, h2]⟩
  simp [run_module, hv]

/-- Witness for C6's amended theorem: the same static declaration with
`None` for the address is rejected with no calls at all. -/
theorem static_missing_ip_rejected_witness :
    run_module
        { staticEmptyIpP with vlans := some [staticNoIpVlan] } false
        vlanMatchE =
      ([], Outcome.failed Msg.staticNeedsIp
        { changed := false, system_id := "" }) :=
  static_missing_ip_rejected
    { staticEmptyIpP with vlans := some [staticNoIpVlan] } false vlanMatchE
    ⟨staticNoIpVlan, by decide, by decide, rfl⟩

/-- C7: commissioning from READY (likewise ALLOCATED or BROKEN): without
force the run fails, naming the current state and hinting that force
unlocks the operation, with no commission call issued; with force it
issues exactly one commission call — carrying the commissioning-script
list when one is supplied, per `commissionCall` — and exits
changed=true. -/
theorem commissioned_force_gate (p : Params) (e : Env)
    (hs : p.state = "commissioned")
    (hv : staticViolation p.vlans = false)
    (hc : e.connectOk = true) (hm : e.machineFound = true)
    (hst : e.status = 4 ∨ e.status = 10 ∨ e.status = 8) :
    (p.force = false →
      (∀ cm, run_module p cm e =
        ([Call.connect, Call.getMachine p.system_id],
         Outcome.failed (Msg.forceToCommission (status_map e.status))
           { changed := false, system_id := "" })) ∧
      Msg.hintsForce (Msg.forceToCommission (status_map e.status)) =
        true) ∧
    (p.force = true →
      run_module p false e =
        ([Call.connect, Call.getMachine p.system_id,
          commissionCall p.scripts],
         Outcome.exited { changed := true, system_id := p.system_id }
           (some (status_map e.status)))) := by
  refine ⟨fun hf => ⟨fun cm => ?_, ?_⟩, fun hf => ?_⟩
  · obtain h | h | h := hst <;>
      simp [run_module, commissionedBranch, finishRun, hs, hv, hc, hm, h,
        hf, NodeStatus.NEW, NodeStatus.READY, NodeStatus.ALLOCATED,
        NodeStatus.BROKEN, NodeStatus.DEPLOYED, NodeStatus.COMMISSIONING,
        NodeStatus.DEPLOYING]
  · obtain h | h | h := hst <;> rw [h] <;> rfl
  · obtain h | h | h := hst <;>
      simp [run_module, commissionedBranch, finishRun, hs, hv, hc, hm, h,
        hf, NodeStatus.NEW, NodeStatus.READY, NodeStatus.ALLOCATED,
        NodeStatus.BROKEN, NodeStatus.DEPLOYED, NodeStatus.COMMISSIONING,
        NodeStatus.DEPLOYING]

/-- Witness for C7: concrete unforced failure from READY and forced
commission (with one script) from BROKEN. -/
theorem commissioned_force_gate_witness :
    run_module commissionNoForceP false baseEnv =
      ([Call.connect, Call.getMachine "y3b3x3"],
       Outcome.failed (Msg.forceToCommission "READY")
         { changed := false, system_id := "" }) ∧
    run_module commissionForceP false statusBrokenE =
      ([Call.connect, Call.getMachine "y3b3x3",
        Call.commission (some ["clear_hardware_raid"])],
       Outcome.exited { changed := true, system_id := "y3b3x3" }
         (some "BROKEN")) :=
  ⟨((commissioned_force_gate commissionNoForceP baseEnv rfl rfl rfl rfl
      (Or.inl rfl)).1 rfl).1 false,
   (commissioned_force_gate commissionForceP statusBrokenE rfl rfl rfl rfl
      (Or.inr (Or.inr rfl))).2 rfl⟩

/-- C8: the end-to-end happy path — target deployed, machine READY, flat
layout, one present DHCP VLAN declaration on eth0 whose subnet resolves
with matching tag 100 — issues, after the connect and machine fetch,
exactly: blank layout, flat layout, interface teardown (delete the VLAN
interface, disconnect the physical one), subnet resolution, two forced
link-up links on eth0 (with the subnet then without), the VLAN interface
creation, the DHCP link on it, and an argument-less deploy; the run
exits changed=true. -/
theorem deploy_happy_path_trace :
    run_module vlanDeployP false vlanMatchE =
      ([Call.connect, Call.getMachine "y3b3x3",
        Call.setStorageLayout "blank", Call.setStorageLayout "flat",
        Call.deleteInterface "eth0.50", Call.disconnectInterface "eth0",
        Call.getSubnet "10.0.0.0/24",
        Call.createLink (IfaceRef.named "eth0") "LINK_UP" (some 7) none
          true,
        Call.createLink (IfaceRef.named "eth0") "LINK_UP" none none true,
        Call.createVlanInterface "eth0" 100,
        Call.createLink (IfaceRef.vlanIface "eth0" 100) "DHCP" (some 7)
          none false,
        Call.deploy none none],
       Outcome.exited { changed := true, system_id := "y3b3x3" }
         (some "READY")) := by
  rfl

/-- C9: every failure outcome of the module carries the seeded result
dictionary — changed=false and an empty system_id — whatever parameters
and environment produced it, and in particular even when mutating calls
had already been issued before the failing step. -/
theorem failure_reports_seeded_result (p : Params) (cm : Bool) (e : Env)
    (m : Msg) (r : ResultDict)
    (h : (run_module p cm e).2 = Outcome.failed m r) :
    r = { changed := false, system_id := "" } := by
  unfold run_module at h
  repeat' split at h
  all_goals first
    | exact finishRun_failed h
    | simp_all

/-- Witness for C9: a forced re-deploy whose final deploy call is
rejected — release, storage resets and the deploy attempt were all
issued, yet the failure reports the seeded changed=false, system_id="".
-/
theorem failure_reports_seeded_result_witness :
    ((run_module forcedDeployP false deployRejectedE).2 =
      Outcome.failed Msg.deployFailed
        { changed := false, system_id := "" }) ∧
    ({ changed := false, system_id := "" } : ResultDict) =
      { changed := false, system_id := "" } :=
  ⟨by rfl,
   failure_reports_seeded_result forcedDeployP false deployRejectedE
     Msg.deployFailed { changed := false, system_id := "" } (by rfl)⟩

/-- C10: check mode does not prevent mutation — the trace of remote calls
is identical with and without check mode (the check-mode test comes only
after reconciliation), and a check-mode success responds with the seeded
changed=false, empty system_id dictionary, without `original_state`,
instead of the computed result. -/
theorem check_mode_runs_everything (p : Params) (e : Env) :
    (run_module p true e).1 = (run_module p false e).1 ∧
    (∀ r os, (run_module p true e).2 = Outcome.exited r os →
      r = { changed := false, system_id := "" } ∧ os = none) := by
  constructor
  · unfold run_module
    by_cases h1 : staticViolation p.vlans = true
    · simp [h1]
    · by_cases h2 : e.connectOk = true
      · by_cases h3 : e.machineFound = true
        · simp only [h1, h2, h3, Bool.not_true, if_true, if_false,
            ite_true, ite_false, Bool.false_eq_true]
          rw [finishRun_fst, finishRun_fst]
        · simp [h1, h2, h3]
      · simp [h1, h2]
  · intro r os h
    unfold run_module at h
    repeat' split at h
    all_goals first
      | exact finishRun_exited_check h
      | simp_all

/-- Witness for C10: the happy-path deployment run in check mode issues
the same trace as the normal-mode run and answers with the seeded
result. -/
theorem check_mode_runs_everything_witness :
    ((run_module vlanDeployP true vlanMatchE).1 =
      (run_module vlanDeployP false vlanMatchE).1) ∧
    (({ changed := false, system_id := "" } : ResultDict) =
        { changed := false, system_id := "" } ∧
      (none : Option String) = none) :=
  ⟨(check_mode_runs_everything vlanDeployP vlanMatchE).1,
   (check_mode_runs_everything vlanDeployP vlanMatchE).2
     { changed := false, system_id := "" } none (by rfl)⟩